import Mathlib

/-!
Shallow embedding of `src/nfc_osc_client.py` (ckafka/nfc-osc-client).

The repository's single source file wires three pieces together:
`NfcReader` (per-reader activation state machine), `ChromatikOcsClient`
(outbound OSC command channel over TCP), and `NfcController` (poll loop).
Two imported modules, `nfc_tags.py` (`CustomTextTag`, `HardCodedTag`) and
`osc_tcp_client.py` (`OscTcpClient`), are not part of the sources; where
their behaviour decides a property they are modelled from the spec, and
each such definition says so in its doc comment.

Side effects are made explicit: printed log lines of the send path become a
`SendReport` value, transmitted OSC messages become a `Msg` list, GPIO led
writes become the `led_enabled` field, and network nondeterminism becomes a
boolean oracle `io : Nat → Bool` consumed one entry per actual network
operation.
-/

/-- Modelled from the spec: the decoded content of an NDEF text record as
`nfc_tags.CustomTextTag` reads it (`is_header_valid`, `get_pattern`,
`is_one_shot`); `nfc_tags.py` is not among the sources. Per spec §4.1 a
structured payload with a recognized header carries the trigger name and
the one-shot flag; an invalid or missing header means Unknown. -/
structure NdefText where
  headerValid : Bool
  pattern : String
  oneShot : Bool
deriving DecidableEq, Repr

/-- A raw tag as delivered by the nfcpy transport: a byte-sequence
identifier and an optional NDEF record (`tag.ndef`). -/
structure RawTag where
  identifier : List Nat
  ndef : Option NdefText
deriving DecidableEq, Repr

/-- Modelled from the spec: the three configured values a registry entry
holds, in the order `HardCodedTag(tag, values[0], values[1], values[2])`
receives them; spec §6 calls them trigger name, one-shot flag and extra
param (`nfc_tags.py` is not among the sources). -/
structure TagVals where
  pattern : String
  oneShot : Bool
  extra : String
deriving DecidableEq, Repr

/-- The interface of `self.active_tag`: both `CustomTextTag` and
`HardCodedTag` expose `get_pattern()` and `is_one_shot()`. -/
structure ActiveTag where
  pattern : String
  oneShot : Bool
deriving DecidableEq, Repr

/-- One OSC message actually transmitted by `send_message(address, value)`.
The address string is recovered by `Msg.address`. -/
structure Msg where
  readerIndex : Nat
  patternName : String
  value : String
deriving DecidableEq, Repr

/-- The address f-string of `tx_pattern_enable` / `tx_pattern_disable`. -/
def Msg.address (m : Msg) : String :=
  "/channel/" ++ toString m.readerIndex ++ "/pattern/" ++ m.patternName ++ "/enable"

/-- Which of the three print statements a `tx_pattern_*` call reaches:
`notOpen` ("OSC port not open. Failed to send msg"), `sent` ("Sent msg"),
or `sendFailed` ("failed to send message"). -/
inductive SendReport where
  | notOpen
  | sent
  | sendFailed
deriving DecidableEq, Repr

/-- Lowercase hexadecimal digit of a value below 16 ('0'-'9', 'a'-'f'). -/
def hexDigitChar (n : Nat) : Char :=
  if n < 10 then Char.ofNat (48 + n) else Char.ofNat (87 + n)

/-- The two lowercase hex digits of one byte. -/
def hexlifyByte (b : Nat) : List Char :=
  [hexDigitChar (b / 16 % 16), hexDigitChar (b % 16)]

/-- Python `binascii.hexlify(bs).decode()`: lowercase hex of a byte string. -/
def hexlify (bs : List Nat) : String :=
  String.mk (bs.foldr (fun b acc => hexlifyByte b ++ acc) [])

/-- Python `str.upper()` on the ASCII strings produced by `hexlify`,
written on the underlying character list so the kernel can evaluate it. -/
def pyUpper (s : String) : String := String.mk (s.data.map Char.toUpper)

/-- The state of one `NfcReader`. `closed` records `clf.close()`;
`led_enabled` mirrors the GPIO indicator line (`set_led`);
`tag_dictionary` is the registry loaded once from
`configs/elder_mother_tags.json`. -/
structure NfcReader where
  last_tag : Option RawTag
  current_tag : Option RawTag
  active_tag : Option ActiveTag
  activated : Bool
  tag_dictionary : List (String × TagVals)
  led_enabled : Bool
  closed : Bool

/-- `NfcReader.__init__`: no tags seen, not activated, led turned on. -/
def NfcReader.init (dict : List (String × TagVals)) : NfcReader :=
  { last_tag := none
    current_tag := none
    active_tag := none
    activated := false
    tag_dictionary := dict
    led_enabled := true
    closed := false }

/-- `NfcReader.update(tag)`: shift `current_tag` into `last_tag`. -/
def NfcReader.update (r : NfcReader) (tag : Option RawTag) : NfcReader :=
  { r with last_tag := r.current_tag, current_tag := tag }

/-- `NfcReader.set_led(state)`: record the new indicator state. -/
def NfcReader.set_led (r : NfcReader) (state : Bool) : NfcReader :=
  { r with led_enabled := state }

/-- `NfcReader.is_current_tag_new_and_valid()`. Returns the Python return
value (`None` when `current_tag` is `None` and the reader is not
activated, else `True`/`False`) together with the updated reader state:
the activated branch toggles the led; a valid verdict stores the
classified tag in `active_tag`. -/
def NfcReader.is_current_tag_new_and_valid (r : NfcReader) :
    Option Bool × NfcReader :=
  if r.activated then
    (some false, r.set_led (!r.led_enabled))
  else
    match r.current_tag with
    | none => (none, r)
    | some t =>
      match t.ndef with
      | some nd =>
        if nd.headerValid then
          (some true, { r with active_tag := some ⟨nd.pattern, nd.oneShot⟩ })
        else
          (some false, r)
      | none =>
        let tag_id := pyUpper (hexlify t.identifier)
        match r.tag_dictionary.lookup tag_id with
        | some v =>
          (some true, { r with active_tag := some ⟨v.pattern, v.oneShot⟩ })
        | none => (some false, r)

/-- `NfcReader.pattern_activated()`. -/
def NfcReader.pattern_activated (r : NfcReader) : NfcReader :=
  { r with activated := true }

/-- `NfcReader.tag_removed()`: deactivate, led back on, drop the tag. -/
def NfcReader.tag_removed (r : NfcReader) : NfcReader :=
  { r with activated := false, led_enabled := true, active_tag := none }

/-- The command channel. `connected` is `ChromatikOcsClient.connected`;
`tconnected` models the underlying `OscTcpClient`'s own connection state
(`osc_tcp_client.py` is not among the sources); `io` is the oracle of
network outcomes and `ops` counts the network operations performed, so
each send or connect attempt consumes one oracle entry. -/
structure ChromatikOcsClient where
  connected : Bool
  tconnected : Bool
  io : Nat → Bool
  ops : Nat

/-- Modelled from the spec: `OscTcpClient.connect()` (`osc_tcp_client.py`
is not among the sources). Spec §4.3: one non-blocking attempt per call,
idempotent no-op while already connected; failure (returning false or
raising, both folded into a `false` oracle entry since the caller catches)
leaves the transport disconnected. -/
def OscTcpClient.connect (c : ChromatikOcsClient) : ChromatikOcsClient × Bool :=
  if c.tconnected then
    (c, true)
  else
    let ok := c.io c.ops
    ({ c with ops := c.ops + 1, tconnected := ok }, ok)

/-- Modelled from the spec: `OscTcpClient.send_message` (`osc_tcp_client.py`
is not among the sources). One transmission consumes one oracle entry; a
failed transmission raises in Python (broken pipe / connection reset, cf.
the comment at `tx_pattern_disable`) and breaks the transport session. -/
def OscTcpClient.send_message (c : ChromatikOcsClient) :
    ChromatikOcsClient × Bool :=
  let ok := c.io c.ops
  ({ c with ops := c.ops + 1, tconnected := c.tconnected && ok }, ok)

/-- `ChromatikOcsClient.connect()`: set `connected` to false, attempt the
transport connect with exceptions swallowed, record and return the outcome. -/
def ChromatikOcsClient.connect (c : ChromatikOcsClient) :
    ChromatikOcsClient × Bool :=
  let c1 : ChromatikOcsClient := { c with connected := false }
  let t := OscTcpClient.connect c1
  ({ t.1 with connected := t.2 }, t.2)

/-- Result of one `tx_pattern_*` call: the channel afterwards, the list of
messages actually transmitted (empty or a singleton), and which print
statement ran. -/
structure TxResult where
  client : ChromatikOcsClient
  sent : List Msg
  report : SendReport

/-- `ChromatikOcsClient.tx_pattern_enable(reader_index, pattern_name,
one_shot)`: not connected means print-and-return with nothing sent; else
transmit `"T\n"`; a raising transmission is caught and marks the channel
disconnected. The Python function returns `None` in every branch. -/
def ChromatikOcsClient.tx_pattern_enable (c : ChromatikOcsClient)
    (reader_index : Nat) (pattern_name : String) (one_shot : Bool) : TxResult :=
  if !c.connected then
    { client := c, sent := [], report := .notOpen }
  else
    let s := OscTcpClient.send_message c
    if s.2 then
      { client := s.1
        sent := [⟨reader_index, pattern_name, "T\n"⟩]
        report := .sent }
    else
      { client := { s.1 with connected := false }, sent := [], report := .sendFailed }

/-- `ChromatikOcsClient.tx_pattern_disable(reader_index, pattern_name)`:
same shape as the enable, transmitting `"F\n"`. -/
def ChromatikOcsClient.tx_pattern_disable (c : ChromatikOcsClient)
    (reader_index : Nat) (pattern_name : String) : TxResult :=
  if !c.connected then
    { client := c, sent := [], report := .notOpen }
  else
    let s := OscTcpClient.send_message c
    if s.2 then
      { client := s.1
        sent := [⟨reader_index, pattern_name, "F\n"⟩]
        report := .sent }
    else
      { client := { s.1 with connected := false }, sent := [], report := .sendFailed }

/-- Python truthiness of the `Option Bool` returned by
`is_current_tag_new_and_valid`: `None` and `False` are falsy. -/
def optTruthy (v : Option Bool) : Bool := v.getD false

/-- `NfcController.tag_detected(tag)`, the nfcpy on-connect callback for
the reader at `reader_index`: update the reader with the tag, classify,
and when new-and-valid send the enable and commit `pattern_activated`
(the send catches its own exceptions, so the commit is unconditional).
Returns the reader, the channel, and the messages transmitted. -/
def NfcController.tag_detected (client : ChromatikOcsClient)
    (reader_index : Nat) (r : NfcReader) (tag : RawTag) :
    NfcReader × ChromatikOcsClient × List Msg :=
  let r1 := r.update (some tag)
  let vr := r1.is_current_tag_new_and_valid
  if optTruthy vr.1 then
    match vr.2.active_tag with
    | some a =>
      let res := client.tx_pattern_enable reader_index a.pattern a.oneShot
      (vr.2.pattern_activated, res.client, res.sent)
    | none =>
      -- unreachable: a true verdict always stores an active tag
      (vr.2, client, [])
  else
    (vr.2, client, [])

/-- The `tag is None` branch of the `poll_readers` loop body: update with
no tag, and when the reader was activated send the disable unless the
active tag is one-shot, then `tag_removed`. When `activated` holds with no
`active_tag` the Python attribute access raises; the loop's handler
catches it, leaving the reader merely updated. -/
def NfcController.no_tag_step (client : ChromatikOcsClient) (idx : Nat)
    (r : NfcReader) : NfcReader × ChromatikOcsClient × List Msg :=
  let r1 := r.update none
  if r1.activated then
    match r1.active_tag with
    | some a =>
      if !a.oneShot then
        let res := client.tx_pattern_disable idx a.pattern
        (r1.tag_removed, res.client, res.sent)
      else
        (r1.tag_removed, client, [])
    | none => (r1, client, [])
  else
    (r1, client, [])

/-- What one `clf.connect(...)` call in `poll_readers` can amount to:
a timeout with no tag, a detected tag (the on-connect callback fires and
`connect` returns the truthy tag, so the `tag is None` branch is
skipped), or a transport exception caught by the loop's handler before
any state change. -/
inductive PollEvent where
  | noTag
  | tagEvent (t : RawTag)
  | faulted

/-- One iteration of the `poll_readers` loop for the reader at slot
`idx`, given the poll outcome `ev`. -/
def NfcController.poll_one (client : ChromatikOcsClient) (idx : Nat)
    (r : NfcReader) (ev : PollEvent) :
    NfcReader × ChromatikOcsClient × List Msg :=
  match ev with
  | .faulted => (r, client, [])
  | .tagEvent t => NfcController.tag_detected client idx r t
  | .noTag => NfcController.no_tag_step client idx r

/-- The `poll_readers` loop: `reader_index` starts at 0 and is incremented
after the try/except of every reader, so slot `idx + i` handles the i-th
reader of the list whatever the events are. -/
def NfcController.poll_loop (evs : Nat → PollEvent) :
    List NfcReader → Nat → ChromatikOcsClient →
    List NfcReader × ChromatikOcsClient × List Msg
  | [], _, c => ([], c, [])
  | r :: rs, idx, c =>
    let step := NfcController.poll_one c idx r (evs idx)
    let rest := NfcController.poll_loop evs rs (idx + 1) step.2.1
    (step.1 :: rest.1, rest.2.1, step.2.2 ++ rest.2.2)

/-- `NfcController.poll_readers()`: raise `OSError` (modelled as `.error`)
below three readers; otherwise run the loop from slot 0 and finish with
the once-per-cycle reconnect retry when the channel is disconnected. -/
def NfcController.poll_readers (evs : Nat → PollEvent)
    (readers : List NfcReader) (client : ChromatikOcsClient) :
    Except Unit (List NfcReader × ChromatikOcsClient × List Msg) :=
  if readers.length < 3 then
    .error ()
  else
    let run := NfcController.poll_loop evs readers 0 client
    let c' := if !run.2.1.connected then (run.2.1.connect).1 else run.2.1
    .ok (run.1, c', run.2.2)

/-- `NfcController.close_all()`: `clf.close()` and `set_led(False)` on
every reader; no channel interaction, so no message is transmitted and
the empty message list is returned alongside for the shutdown theorems. -/
def NfcController.close_all (readers : List NfcReader) :
    List NfcReader × List Msg :=
  (readers.map (fun r => { (r.set_led false) with closed := true }), [])

/-- The reader-state component of `poll_one`, written without the channel
or the slot index: the loop body changes a reader's state in a way that
depends only on that reader and its own poll outcome
(`poll_one_fst` proves the agreement). -/
def NfcReader.step (r : NfcReader) (ev : PollEvent) : NfcReader :=
  match ev with
  | .faulted => r
  | .tagEvent t =>
    let vr := (r.update (some t)).is_current_tag_new_and_valid
    if optTruthy vr.1 then
      match vr.2.active_tag with
      | some _ => vr.2.pattern_activated
      | none => vr.2
    else
      vr.2
  | .noTag =>
    let r1 := r.update none
    if r1.activated then
      match r1.active_tag with
      | some _ => r1.tag_removed
      | none => r1
    else
      r1

/-- Reader states reachable through the controller: readers are created by
`NfcReader.__init__` and thereafter touched only inside the
`poll_readers` loop, whose per-reader body is `poll_one`. -/
inductive ReaderReachable : NfcReader → Prop
  | init (dict) : ReaderReachable (NfcReader.init dict)
  | step (c : ChromatikOcsClient) (idx : Nat) (ev : PollEvent)
      (r : NfcReader) : ReaderReachable r →
      ReaderReachable (NfcController.poll_one c idx r ev).1

/-! Concrete inputs used by witnesses and counterexamples. -/

/-- A one-entry registry in the shape of `elder_mother_tags.json`, using
the spec's scenario values: identifier "A1B2", pattern "fire", not
one-shot. -/
def demoDict : List (String × TagVals) := [("A1B2", ⟨"fire", false, "0"⟩)]

/-- A tag carrying a valid NDEF text record. -/
def demoNdefTag : RawTag := ⟨[1, 2], some ⟨true, "fire", false⟩⟩

/-- A one-shot tag carrying a valid NDEF text record. -/
def demoOneShotTag : RawTag := ⟨[3, 4], some ⟨true, "burst", true⟩⟩

/-- A bare tag whose identifier hexlifies to "a1b2", hence registry key
"A1B2". -/
def demoHardTag : RawTag := ⟨[161, 178], none⟩

/-- The spec's unmapped identifier "FFFF": a bare tag with no registry
entry. -/
def demoUnknownTag : RawTag := ⟨[255, 255], none⟩

/-- A connected client whose transmissions succeed. -/
def demoClientOk : ChromatikOcsClient :=
  { connected := true, tconnected := true, io := fun _ => true, ops := 0 }

/-- A connected client whose next network operation fails. -/
def demoClientFail : ChromatikOcsClient :=
  { connected := true, tconnected := true, io := fun _ => false, ops := 0 }

/-- A disconnected client. -/
def demoClientDown : ChromatikOcsClient :=
  { connected := false, tconnected := false, io := fun _ => false, ops := 0 }

/-- A disconnected client whose next connect attempt succeeds. -/
def demoClientDownUp : ChromatikOcsClient :=
  { connected := false, tconnected := false, io := fun _ => true, ops := 0 }

/-- A reader in the ACTIVE state holding the non-one-shot "fire" trigger,
its led off as after an activation. -/
def demoActiveReader : NfcReader :=
  { NfcReader.init demoDict with
      activated := true
      active_tag := some ⟨"fire", false⟩
      led_enabled := false }

/-- A reader in the ACTIVE state holding a one-shot trigger. -/
def demoOneShotReader : NfcReader :=
  { NfcReader.init demoDict with
      activated := true
      active_tag := some ⟨"burst", true⟩
      led_enabled := false }

/-- An event stream presenting the NDEF demo tag at every slot. -/
def demoEvs : Nat → PollEvent := fun _ => PollEvent.tagEvent demoNdefTag

/-! Helper lemmas shared between the claim theorems. -/

/-- The reader component of one loop iteration ignores the channel and the
slot index: it is `NfcReader.step`. -/
theorem poll_one_fst (c : ChromatikOcsClient) (idx : Nat) (r : NfcReader)
    (ev : PollEvent) :
    (NfcController.poll_one c idx r ev).1 = NfcReader.step r ev := by
  cases ev with
  | faulted => rfl
  | tagEvent t =>
    simp only [NfcController.poll_one, NfcController.tag_detected,
      NfcReader.step]
    split
    · split <;> rfl
    · rfl
  | noTag =>
    simp only [NfcController.poll_one, NfcController.no_tag_step,
      NfcReader.step]
    split
    · split
      · split <;> rfl
      · rfl
    · rfl

/-- A `tx_pattern_enable` only transmits messages carrying its own
reader index. -/
theorem tx_enable_sent_index (c : ChromatikOcsClient) (i : Nat) (p : String)
    (o : Bool) (m : Msg) (hm : m ∈ (c.tx_pattern_enable i p o).sent) :
    m.readerIndex = i := by
  simp only [ChromatikOcsClient.tx_pattern_enable] at hm
  split at hm
  · simp at hm
  · split at hm
    · simp at hm
      subst hm
      rfl
    · simp at hm

/-- A `tx_pattern_disable` only transmits messages carrying its own
reader index. -/
theorem tx_disable_sent_index (c : ChromatikOcsClient) (i : Nat) (p : String)
    (m : Msg) (hm : m ∈ (c.tx_pattern_disable i p).sent) :
    m.readerIndex = i := by
  simp only [ChromatikOcsClient.tx_pattern_disable] at hm
  split at hm
  · simp at hm
  · split at hm
    · simp at hm
      subst hm
      rfl
    · simp at hm

/-- Every message transmitted by one loop iteration carries the slot index
of that iteration. -/
theorem poll_one_sent_index (c : ChromatikOcsClient) (idx : Nat)
    (r : NfcReader) (ev : PollEvent) (m : Msg)
    (hm : m ∈ (NfcController.poll_one c idx r ev).2.2) :
    m.readerIndex = idx := by
  cases ev with
  | faulted => simp [NfcController.poll_one] at hm
  | tagEvent t =>
    simp only [NfcController.poll_one, NfcController.tag_detected] at hm
    split at hm
    · split at hm
      · exact tx_enable_sent_index _ _ _ _ m hm
      · simp at hm
    · simp at hm
  | noTag =>
    simp only [NfcController.poll_one, NfcController.no_tag_step] at hm
    split at hm
    · split at hm
      · split at hm
        · exact tx_disable_sent_index _ _ _ m hm
        · simp at hm
      · simp at hm
    · simp at hm

/-- While a reader is activated, `tag_detected` only updates the tag
fields and toggles the led: no message, no channel change. -/
theorem tag_detected_while_active (c : ChromatikOcsClient) (idx : Nat)
    (r : NfcReader) (t : RawTag) (ha : r.activated = true) :
    NfcController.tag_detected c idx r t
      = ((r.update (some t)).set_led (!r.led_enabled), c, []) := by
  simp [NfcController.tag_detected, NfcReader.is_current_tag_new_and_valid,
    NfcReader.update, NfcReader.set_led, ha, optTruthy]

/-- A true verdict of `is_current_tag_new_and_valid` always stores an
active tag. -/
theorem valid_verdict_stores_tag (r : NfcReader)
    (h : (r.is_current_tag_new_and_valid).1 = some true) :
    ∃ a, (r.is_current_tag_new_and_valid).2.active_tag = some a := by
  simp only [NfcReader.is_current_tag_new_and_valid] at h ⊢
  split at h
  · simp at h
  · split at h
    · simp at h
    · split at h
      · split at h <;> simp_all
      · split at h <;> simp_all

/-- One loop iteration preserves "an active tag is stored iff the reader
is activated". -/
theorem step_preserves_inv (r : NfcReader) (ev : PollEvent)
    (h : r.active_tag.isSome = r.activated) :
    (NfcReader.step r ev).active_tag.isSome = (NfcReader.step r ev).activated := by
  cases ev with
  | faulted => exact h
  | tagEvent t =>
    simp only [NfcReader.step, NfcReader.is_current_tag_new_and_valid,
      NfcReader.update, NfcReader.set_led, NfcReader.pattern_activated]
    by_cases ha : r.activated
    · simp [ha, optTruthy, h]
    · simp only [eq_self_iff_true, ha, if_neg, Bool.not_eq_true] at *
      cases hn : t.ndef with
      | some nd =>
        by_cases hh : nd.headerValid
        · simp [hn, hh, optTruthy]
        · simp [hn, hh, optTruthy, h, ha]
      | none =>
        cases hl : (r.tag_dictionary.lookup (pyUpper (hexlify t.identifier))) with
        | some v => simp [hn, hl, optTruthy]
        | none => simp [hn, hl, optTruthy, h, ha]
  | noTag =>
    simp only [NfcReader.step, NfcReader.update, NfcReader.tag_removed]
    by_cases ha : r.activated
    · cases hat : r.active_tag with
      | some a => simp [ha, hat]
      | none => simp [hat, ha] at h
    · simp [ha, h]

/-- The loop processes exactly one output reader per input reader. -/
theorem poll_loop_length (evs : Nat → PollEvent) (rs : List NfcReader)
    (idx : Nat) (c : ChromatikOcsClient) :
    (NfcController.poll_loop evs rs idx c).1.length = rs.length := by
  induction rs generalizing idx c with
  | nil => rfl
  | cons r rs ih => simp [NfcController.poll_loop, ih]

/-- The i-th output reader of the loop is the i-th input reader stepped by
its own event at slot `idx + i`, whatever the channel and the other
readers' events are. -/
theorem poll_loop_get (evs : Nat → PollEvent) (rs : List NfcReader)
    (idx : Nat) (c : ChromatikOcsClient) (i : Nat) :
    (NfcController.poll_loop evs rs idx c).1[i]?
      = (rs[i]?).map (fun r => NfcReader.step r (evs (idx + i))) := by
  induction rs generalizing idx c i with
  | nil => simp [NfcController.poll_loop]
  | cons r rs ih =>
    cases i with
    | zero => simp [NfcController.poll_loop, poll_one_fst]
    | succ j =>
      simp only [NfcController.poll_loop, List.getElem?_cons_succ]
      rw [ih]
      simp [Nat.add_assoc, Nat.add_comm 1 j]

/-- Every message the loop emits was produced by `poll_one` on the input
reader that sits at the slot the message's address names. -/
theorem poll_loop_sent (evs : Nat → PollEvent) (rs : List NfcReader)
    (idx : Nat) (c : ChromatikOcsClient) (m : Msg)
    (hm : m ∈ (NfcController.poll_loop evs rs idx c).2.2) :
    ∃ c₂ r, idx ≤ m.readerIndex ∧ rs[m.readerIndex - idx]? = some r
      ∧ m ∈ (NfcController.poll_one c₂ m.readerIndex r (evs m.readerIndex)).2.2 := by
  induction rs generalizing idx c with
  | nil => simp [NfcController.poll_loop] at hm
  | cons r rs ih =>
    simp only [NfcController.poll_loop, List.mem_append] at hm
    cases hm with
    | inl h =>
      have hidx := poll_one_sent_index c idx r (evs idx) m h
      refine ⟨c, r, ?_, ?_, ?_⟩
      · omega
      · simp [hidx]
      · rw [hidx]; exact h
    | inr h =>
      obtain ⟨c₂, r₂, hle, hget, hmem⟩ := ih _ _ h
      refine ⟨c₂, r₂, by omega, ?_, hmem⟩
      have : m.readerIndex - idx = (m.readerIndex - (idx + 1)) + 1 := by omega
      rw [this]
      simpa using hget

/-! Claim theorems. -/

/-- C1, counterexample: the claimed invariant "active_tag is non-null iff
activated" is not preserved by every public operation. Starting from a
fresh reader, `update` with a valid NDEF tag followed by
`is_current_tag_new_and_valid` (two public operations) yields a state
holding an active tag while `activated` is still false: the method stores
the classified tag and leaves the activation to a later
`pattern_activated` call. -/
theorem C1_counterexample :
    ((((NfcReader.init demoDict).update
        (some demoNdefTag)).is_current_tag_new_and_valid).2.active_tag.isSome = true)
    ∧ ((((NfcReader.init demoDict).update
        (some demoNdefTag)).is_current_tag_new_and_valid).2.activated = false) := by
  exact ⟨rfl, rfl⟩

/-- C1, amended: at the granularity at which the controller actually
drives a reader — one `poll_one` loop iteration per cycle, combining
update, classification, activation and removal — every reachable reader
state satisfies "active_tag is non-null iff activated"; the invariant is
only broken transiently inside an iteration, between
`is_current_tag_new_and_valid` storing the tag and `pattern_activated`
setting the flag. -/
theorem C1_reachable_inv (r : NfcReader) (h : ReaderReachable r) :
    r.active_tag.isSome = r.activated := by
  induction h with
  | init dict => rfl
  | step c idx ev r₀ _ ih =>
    rw [poll_one_fst]
    exact step_preserves_inv _ _ ih

/-- C1, witness: the invariant at a concrete reachable state, one
activation step after startup. -/
theorem C1_witness :
    ReaderReachable ((NfcController.poll_one demoClientOk 0
        (NfcReader.init demoDict) (PollEvent.tagEvent demoNdefTag)).1)
    ∧ ((NfcController.poll_one demoClientOk 0 (NfcReader.init demoDict)
        (PollEvent.tagEvent demoNdefTag)).1.active_tag.isSome
      = (NfcController.poll_one demoClientOk 0 (NfcReader.init demoDict)
        (PollEvent.tagEvent demoNdefTag)).1.activated) :=
  ⟨ReaderReachable.step _ _ _ _ (ReaderReachable.init demoDict),
    C1_reachable_inv _ (ReaderReachable.step _ _ _ _ (ReaderReachable.init demoDict))⟩

/-- C2 (confirmed): when an ACTIVE reader's poll returns no tag, the
no-tag branch of `poll_readers` sends the disable for the active trigger
exactly when it is not one-shot (for a one-shot trigger the channel is
untouched and nothing is transmitted), and in both cases the reader goes
IDLE: activated false, active tag cleared, led restored to on. With a
connected channel and a succeeding transmission the disable message for
this slot and pattern is actually sent. -/
theorem C2_active_tag_removed (c : ChromatikOcsClient) (idx : Nat)
    (r : NfcReader) (a : ActiveTag) (ha : r.activated = true)
    (hat : r.active_tag = some a) :
    (NfcController.no_tag_step c idx r).1.activated = false
    ∧ (NfcController.no_tag_step c idx r).1.active_tag = none
    ∧ (NfcController.no_tag_step c idx r).1.led_enabled = true
    ∧ (a.oneShot = true →
        NfcController.no_tag_step c idx r = ((r.update none).tag_removed, c, []))
    ∧ (a.oneShot = false →
        (NfcController.no_tag_step c idx r).2.1
            = (c.tx_pattern_disable idx a.pattern).client
        ∧ (NfcController.no_tag_step c idx r).2.2
            = (c.tx_pattern_disable idx a.pattern).sent
        ∧ (c.connected = true → c.io c.ops = true →
            (NfcController.no_tag_step c idx r).2.2 = [⟨idx, a.pattern, "F\n"⟩])) := by
  by_cases ho : a.oneShot
  · simp [NfcController.no_tag_step, NfcReader.update, NfcReader.tag_removed,
      ha, hat, ho]
  · refine ⟨?_, ?_, ?_, ?_, ?_⟩ <;>
      simp [NfcController.no_tag_step, NfcReader.update, NfcReader.tag_removed,
        ha, hat, ho]
    intro hc hio
    simp [ChromatikOcsClient.tx_pattern_disable, OscTcpClient.send_message,
      hc, hio]

/-- C2, witness: the non-one-shot case at a concrete ACTIVE reader and a
connected, succeeding channel. -/
theorem C2_witness :
    demoActiveReader.activated = true
    ∧ demoActiveReader.active_tag = some ⟨"fire", false⟩
    ∧ ((NfcController.no_tag_step demoClientOk 2 demoActiveReader).1.activated = false
      ∧ (NfcController.no_tag_step demoClientOk 2 demoActiveReader).1.active_tag = none
      ∧ (NfcController.no_tag_step demoClientOk 2 demoActiveReader).1.led_enabled = true
      ∧ ((⟨"fire", false⟩ : ActiveTag).oneShot = true →
          NfcController.no_tag_step demoClientOk 2 demoActiveReader
            = ((demoActiveReader.update none).tag_removed, demoClientOk, []))
      ∧ ((⟨"fire", false⟩ : ActiveTag).oneShot = false →
          (NfcController.no_tag_step demoClientOk 2 demoActiveReader).2.1
              = (demoClientOk.tx_pattern_disable 2 "fire").client
          ∧ (NfcController.no_tag_step demoClientOk 2 demoActiveReader).2.2
              = (demoClientOk.tx_pattern_disable 2 "fire").sent
          ∧ (demoClientOk.connected = true → demoClientOk.io demoClientOk.ops = true →
              (NfcController.no_tag_step demoClientOk 2 demoActiveReader).2.2
                = [⟨2, "fire", "F\n"⟩]))) :=
  ⟨rfl, rfl, C2_active_tag_removed demoClientOk 2 demoActiveReader ⟨"fire", false⟩ rfl rfl⟩

/-- C3 (confirmed): a `tx_pattern_enable` or `tx_pattern_disable` on a
disconnected channel returns at once with the failure print (`notOpen`),
transmits nothing, and leaves the channel exactly as it was; both
functions are total in the embedding, matching the Python code where the
disconnected branch contains only a print. -/
theorem C3_send_while_disconnected (c : ChromatikOcsClient) (i : Nat)
    (p : String) (o : Bool) (h : c.connected = false) :
    c.tx_pattern_enable i p o = ⟨c, [], SendReport.notOpen⟩
    ∧ c.tx_pattern_disable i p = ⟨c, [], SendReport.notOpen⟩ := by
  constructor <;>
    simp [ChromatikOcsClient.tx_pattern_enable,
      ChromatikOcsClient.tx_pattern_disable, h]

/-- C3, witness: both sends on a concrete disconnected client. -/
theorem C3_witness :
    demoClientDown.connected = false
    ∧ (demoClientDown.tx_pattern_enable 0 "fire" false
        = ⟨demoClientDown, [], SendReport.notOpen⟩
      ∧ demoClientDown.tx_pattern_disable 0 "fire"
        = ⟨demoClientDown, [], SendReport.notOpen⟩) :=
  ⟨rfl, C3_send_while_disconnected demoClientDown 0 "fire" false rfl⟩

/-- C4 (confirmed): when the transmission behind an enable fails, the
channel marks itself disconnected and nothing is transmitted; the reader
still commits the transition (`pattern_activated` runs after the failed
enable exactly as after a successful one, since `tx_pattern_enable`
swallows its own exception), and while the reader stays activated no
later `tag_detected` on it transmits anything, so the dropped intent is
never re-sent — only the connection is retried, by the cycle's
reconnect. -/
theorem C4_failed_send_commits (c : ChromatikOcsClient) (idx : Nat)
    (r : NfcReader) (t : RawTag) (ha : r.activated = false)
    (hv : ((r.update (some t)).is_current_tag_new_and_valid).1 = some true)
    (hc : c.connected = true) (hfail : c.io c.ops = false) :
    (NfcController.tag_detected c idx r t).2.1.connected = false
    ∧ (NfcController.tag_detected c idx r t).2.2 = []
    ∧ (NfcController.tag_detected c idx r t).1.activated = true
    ∧ (∀ (c₂ : ChromatikOcsClient) (idx₂ : Nat) (t₂ : RawTag),
        (NfcController.tag_detected c₂ idx₂
            (NfcController.tag_detected c idx r t).1 t₂).2.2 = []
        ∧ (NfcController.tag_detected c₂ idx₂
            (NfcController.tag_detected c idx r t).1 t₂).1.activated = true) := by
  obtain ⟨a, hat⟩ := valid_verdict_stores_tag _ hv
  have hact : (NfcController.tag_detected c idx r t).1.activated = true := by
    simp [NfcController.tag_detected, hv, hat, optTruthy,
      NfcReader.pattern_activated]
  refine ⟨?_, ?_, hact, ?_⟩
  · simp [NfcController.tag_detected, hv, hat, optTruthy,
      ChromatikOcsClient.tx_pattern_enable, OscTcpClient.send_message, hc, hfail]
  · simp [NfcController.tag_detected, hv, hat, optTruthy,
      ChromatikOcsClient.tx_pattern_enable, OscTcpClient.send_message, hc, hfail]
  · intro c₂ idx₂ t₂
    rw [tag_detected_while_active c₂ idx₂ _ t₂ hact]
    simp [NfcReader.update, NfcReader.set_led, hact]

/-- C4, witness: a connected channel whose transmission fails, a fresh
reader, a valid tag. -/
theorem C4_witness :
    (NfcReader.init demoDict).activated = false
    ∧ (((NfcReader.init demoDict).update
        (some demoNdefTag)).is_current_tag_new_and_valid).1 = some true
    ∧ demoClientFail.connected = true
    ∧ demoClientFail.io demoClientFail.ops = false
    ∧ ((NfcController.tag_detected demoClientFail 0 (NfcReader.init demoDict)
          demoNdefTag).2.1.connected = false
      ∧ (NfcController.tag_detected demoClientFail 0 (NfcReader.init demoDict)
          demoNdefTag).2.2 = []
      ∧ (NfcController.tag_detected demoClientFail 0 (NfcReader.init demoDict)
          demoNdefTag).1.activated = true
      ∧ (∀ (c₂ : ChromatikOcsClient) (idx₂ : Nat) (t₂ : RawTag),
          (NfcController.tag_detected c₂ idx₂
              (NfcController.tag_detected demoClientFail 0
                (NfcReader.init demoDict) demoNdefTag).1 t₂).2.2 = []
          ∧ (NfcController.tag_detected c₂ idx₂
              (NfcController.tag_detected demoClientFail 0
                (NfcReader.init demoDict) demoNdefTag).1 t₂).1.activated = true)) :=
  ⟨rfl, rfl, rfl, rfl,
    C4_failed_send_commits demoClientFail 0 (NfcReader.init demoDict)
      demoNdefTag rfl rfl rfl rfl⟩

/-- C5 (confirmed): while a reader is ACTIVE, a poll that presents any
tag (same or different) goes through the activated branch of
`is_current_tag_new_and_valid`: nothing is transmitted, the channel is
untouched, `activated` and `active_tag` keep their values; the only side
effect is the busy-blink led toggle. -/
theorem C5_no_retrigger_while_active (c : ChromatikOcsClient) (idx : Nat)
    (r : NfcReader) (t : RawTag) (ha : r.activated = true) :
    (NfcController.tag_detected c idx r t).2.2 = []
    ∧ (NfcController.tag_detected c idx r t).1.activated = r.activated
    ∧ (NfcController.tag_detected c idx r t).1.active_tag = r.active_tag
    ∧ (NfcController.tag_detected c idx r t).2.1 = c
    ∧ (NfcController.tag_detected c idx r t).1.led_enabled = !r.led_enabled := by
  rw [tag_detected_while_active c idx r t ha]
  simp [NfcReader.update, NfcReader.set_led]

/-- C5, witness: an ACTIVE reader presented with a different, registered
tag. -/
theorem C5_witness :
    demoActiveReader.activated = true
    ∧ ((NfcController.tag_detected demoClientOk 0 demoActiveReader
          demoHardTag).2.2 = []
      ∧ (NfcController.tag_detected demoClientOk 0 demoActiveReader
          demoHardTag).1.activated = demoActiveReader.activated
      ∧ (NfcController.tag_detected demoClientOk 0 demoActiveReader
          demoHardTag).1.active_tag = demoActiveReader.active_tag
      ∧ (NfcController.tag_detected demoClientOk 0 demoActiveReader
          demoHardTag).2.1 = demoClientOk
      ∧ (NfcController.tag_detected demoClientOk 0 demoActiveReader
          demoHardTag).1.led_enabled = !demoActiveReader.led_enabled) :=
  ⟨rfl, C5_no_retrigger_while_active demoClientOk 0 demoActiveReader demoHardTag rfl⟩

/-- C6 (confirmed, spec-modelled): `ChromatikOcsClient.connect` makes at
most one connection attempt per call, and exactly one whenever the
transport is not already connected: a failed attempt returns false and
leaves `connected` false, a successful one returns true and leaves it
true; calling it while the channel is already connected is a no-op that
returns true and leaves the state untouched (`osc_tcp_client.py` is not
among the sources, so the underlying `OscTcpClient.connect` is modelled
from spec §4.3). -/
theorem C6_reconnect (c : ChromatikOcsClient) :
    ((c.connect).1.ops ≤ c.ops + 1)
    ∧ (c.tconnected = false →
        (c.connect).1.ops = c.ops + 1
        ∧ (c.io c.ops = false →
            (c.connect).2 = false ∧ (c.connect).1.connected = false)
        ∧ (c.io c.ops = true →
            (c.connect).2 = true ∧ (c.connect).1.connected = true))
    ∧ (c.tconnected = true → c.connected = true → c.connect = (c, true)) := by
  obtain ⟨conn, tconn, io, ops⟩ := c
  refine ⟨?_, ?_, ?_⟩
  · by_cases h : tconn <;>
      simp [ChromatikOcsClient.connect, OscTcpClient.connect, h]
  · intro h
    simp only at h
    subst h
    refine ⟨by simp [ChromatikOcsClient.connect, OscTcpClient.connect], ?_, ?_⟩ <;>
      intro hio <;>
      simp at hio <;>
      simp [ChromatikOcsClient.connect, OscTcpClient.connect, hio]
  · intro h1 h2
    simp only at h1 h2
    subst h1
    subst h2
    simp [ChromatikOcsClient.connect, OscTcpClient.connect]

/-- C6, witness: a failing attempt, a succeeding attempt, and the
connected no-op, each on a concrete client. -/
theorem C6_witness :
    (demoClientDown.tconnected = false
      ∧ (demoClientDown.connect).1.ops = demoClientDown.ops + 1
      ∧ (demoClientDown.connect).2 = false
      ∧ (demoClientDown.connect).1.connected = false)
    ∧ ((demoClientDownUp.connect).2 = true
      ∧ (demoClientDownUp.connect).1.connected = true)
    ∧ (demoClientOk.tconnected = true ∧ demoClientOk.connected = true
      ∧ demoClientOk.connect = (demoClientOk, true)) :=
  ⟨⟨rfl, ((C6_reconnect demoClientDown).2.1 rfl).1,
      (((C6_reconnect demoClientDown).2.1 rfl).2.1 rfl).1,
      (((C6_reconnect demoClientDown).2.1 rfl).2.1 rfl).2⟩,
    ⟨(((C6_reconnect demoClientDownUp).2.1 rfl).2.2 rfl).1,
      (((C6_reconnect demoClientDownUp).2.1 rfl).2.2 rfl).2⟩,
    ⟨rfl, rfl, (C6_reconnect demoClientOk).2.2 rfl rfl⟩⟩

/-- C7, counterexample: `close_all` on a reader that is still ACTIVE with
the non-one-shot "fire" trigger sends no disable command (it never
touches the channel) and leaves the reader activated rather than forcing
it to IDLE — it only closes the frontend and turns the led off. -/
theorem C7_counterexample :
    (NfcController.close_all [demoActiveReader]).2 = []
    ∧ (NfcController.close_all [demoActiveReader]).1.map NfcReader.activated
        = [true]
    ∧ (NfcController.close_all [demoActiveReader]).1.map NfcReader.active_tag
        = [some ⟨"fire", false⟩] :=
  ⟨rfl, rfl, rfl⟩

/-- C7, amended: on shutdown (both the normal exit and the
exception path of `__main__` run exactly `close_all`) every reader is
closed and its indicator cleared, but no disable command is sent and the
activation state is left as it was: `activated` and `active_tag` are
unchanged, so a still-active non-one-shot trigger is never deactivated on
the server. -/
theorem C7_close_all (readers : List NfcReader) (i : Nat)
    (h : i < readers.length) :
    (NfcController.close_all readers).2 = []
    ∧ ((NfcController.close_all readers).1[i]?).map NfcReader.closed = some true
    ∧ ((NfcController.close_all readers).1[i]?).map NfcReader.led_enabled
        = some false
    ∧ ((NfcController.close_all readers).1[i]?).map NfcReader.activated
        = (readers[i]?).map NfcReader.activated
    ∧ ((NfcController.close_all readers).1[i]?).map NfcReader.active_tag
        = (readers[i]?).map NfcReader.active_tag := by
  have hr : readers[i]? = some readers[i] := List.getElem?_eq_getElem h
  simp [NfcController.close_all, NfcReader.set_led, hr]

/-- C7, witness: the amended shutdown behaviour at the concrete ACTIVE
reader. -/
theorem C7_witness :
    0 < [demoActiveReader].length
    ∧ ((NfcController.close_all [demoActiveReader]).2 = []
      ∧ ((NfcController.close_all [demoActiveReader]).1[0]?).map NfcReader.closed
          = some true
      ∧ ((NfcController.close_all [demoActiveReader]).1[0]?).map NfcReader.led_enabled
          = some false
      ∧ ((NfcController.close_all [demoActiveReader]).1[0]?).map NfcReader.activated
          = ([demoActiveReader][0]?).map NfcReader.activated
      ∧ ((NfcController.close_all [demoActiveReader]).1[0]?).map NfcReader.active_tag
          = ([demoActiveReader][0]?).map NfcReader.active_tag) :=
  ⟨by decide, C7_close_all [demoActiveReader] 0 (by decide)⟩

/-- C8, counterexample: an IDLE reader presented with the unmapped bare
identifier "FFFF" is left with its indicator exactly as it was — the
unknown-tag branch only prints, so the claimed rejected-blink toggle does
not happen. -/
theorem C8_counterexample :
    ¬ ((NfcController.tag_detected demoClientOk 1 (NfcReader.init demoDict)
          demoUnknownTag).1.led_enabled
        = !(NfcReader.init demoDict).led_enabled) := by
  decide

/-- C8, amended: an IDLE reader polled with a tag that has no NDEF record
and whose hex identifier is not in the registry sends nothing, leaves the
channel untouched, and only records the tag via `update`: `activated`,
`active_tag` and the indicator are unchanged and no blink cue is given. -/
theorem C8_unknown_tag_idle (c : ChromatikOcsClient) (idx : Nat)
    (r : NfcReader) (t : RawTag) (ha : r.activated = false)
    (hn : t.ndef = none)
    (hd : r.tag_dictionary.lookup (pyUpper (hexlify t.identifier)) = none) :
    NfcController.tag_detected c idx r t = (r.update (some t), c, []) := by
  simp [NfcController.tag_detected, NfcReader.is_current_tag_new_and_valid,
    NfcReader.update, ha, hn, hd, optTruthy]

/-- C8, witness: the spec's "FFFF" scenario on a fresh reader. -/
theorem C8_witness :
    (NfcReader.init demoDict).activated = false
    ∧ demoUnknownTag.ndef = none
    ∧ (NfcReader.init demoDict).tag_dictionary.lookup
        (pyUpper (hexlify demoUnknownTag.identifier)) = none
    ∧ NfcController.tag_detected demoClientOk 1 (NfcReader.init demoDict)
        demoUnknownTag
      = ((NfcReader.init demoDict).update (some demoUnknownTag), demoClientOk, []) :=
  ⟨rfl, rfl, by decide,
    C8_unknown_tag_idle demoClientOk 1 (NfcReader.init demoDict) demoUnknownTag
      rfl rfl (by decide)⟩

/-- C9, counterexample: classification is not free of reader-state
effects: on an IDLE reader holding a valid NDEF tag,
`is_current_tag_new_and_valid` changes `active_tag` (it stores the
classified trigger there). -/
theorem C9_counterexample :
    ¬ ((((NfcReader.init demoDict).update
          (some demoNdefTag)).is_current_tag_new_and_valid).2.active_tag
        = ((NfcReader.init demoDict).update (some demoNdefTag)).active_tag) := by
  decide

/-- C9, amended: classification is deterministic — in this embedding it
is a pure function of the reader state, whose registry snapshot is the
`tag_dictionary` field, and it takes no channel argument, so two runs on
the same state agree definitionally and the channel is untouched — and on
a non-activated reader it leaves `activated`, the indicator, the tag
fields and the registry unchanged; its one write is `active_tag`, which
it sets exactly on a valid verdict and otherwise leaves unchanged. -/
theorem C9_classification_frame (r : NfcReader) (ha : r.activated = false) :
    (r.is_current_tag_new_and_valid).2.activated = r.activated
    ∧ (r.is_current_tag_new_and_valid).2.led_enabled = r.led_enabled
    ∧ (r.is_current_tag_new_and_valid).2.current_tag = r.current_tag
    ∧ (r.is_current_tag_new_and_valid).2.last_tag = r.last_tag
    ∧ (r.is_current_tag_new_and_valid).2.tag_dictionary = r.tag_dictionary
    ∧ ((r.is_current_tag_new_and_valid).1 = some true →
        (r.is_current_tag_new_and_valid).2.active_tag.isSome = true)
    ∧ ((r.is_current_tag_new_and_valid).1 ≠ some true →
        (r.is_current_tag_new_and_valid).2.active_tag = r.active_tag) := by
  cases hct : r.current_tag with
  | none => simp [NfcReader.is_current_tag_new_and_valid, ha, hct]
  | some t =>
    cases hnd : t.ndef with
    | some nd =>
      by_cases hh : nd.headerValid <;>
        simp [NfcReader.is_current_tag_new_and_valid, ha, hct, hnd, hh]
    | none =>
      cases hl : r.tag_dictionary.lookup (pyUpper (hexlify t.identifier)) with
      | some v =>
        simp [NfcReader.is_current_tag_new_and_valid, ha, hct, hnd, hl]
      | none =>
        simp [NfcReader.is_current_tag_new_and_valid, ha, hct, hnd, hl]

/-- C9, witness: the frame conditions at a concrete IDLE reader holding
the registered bare tag. -/
theorem C9_witness :
    ((NfcReader.init demoDict).update (some demoHardTag)).activated = false
    ∧ ((((NfcReader.init demoDict).update
          (some demoHardTag)).is_current_tag_new_and_valid).2.activated
        = ((NfcReader.init demoDict).update (some demoHardTag)).activated
      ∧ ((((NfcReader.init demoDict).update
          (some demoHardTag)).is_current_tag_new_and_valid).2.led_enabled
        = ((NfcReader.init demoDict).update (some demoHardTag)).led_enabled)
      ∧ ((((NfcReader.init demoDict).update
          (some demoHardTag)).is_current_tag_new_and_valid).2.current_tag
        = ((NfcReader.init demoDict).update (some demoHardTag)).current_tag)
      ∧ ((((NfcReader.init demoDict).update
          (some demoHardTag)).is_current_tag_new_and_valid).2.last_tag
        = ((NfcReader.init demoDict).update (some demoHardTag)).last_tag)
      ∧ ((((NfcReader.init demoDict).update
          (some demoHardTag)).is_current_tag_new_and_valid).2.tag_dictionary
        = ((NfcReader.init demoDict).update (some demoHardTag)).tag_dictionary)
      ∧ ((((NfcReader.init demoDict).update
            (some demoHardTag)).is_current_tag_new_and_valid).1 = some true →
          ((((NfcReader.init demoDict).update
            (some demoHardTag)).is_current_tag_new_and_valid).2.active_tag).isSome = true)
      ∧ ((((NfcReader.init demoDict).update
            (some demoHardTag)).is_current_tag_new_and_valid).1 ≠ some true →
          ((((NfcReader.init demoDict).update
            (some demoHardTag)).is_current_tag_new_and_valid).2.active_tag
            = ((NfcReader.init demoDict).update (some demoHardTag)).active_tag))) :=
  ⟨rfl, C9_classification_frame ((NfcReader.init demoDict).update (some demoHardTag)) rfl⟩

/-- C10 (confirmed): one poll cycle processes every reader exactly once
in list order: the output list is as long as the input, the i-th output
reader is the i-th input reader stepped by its own poll outcome at slot i
— independent of the channel and of every other reader's outcome,
faults included, because `reader_index += 1` sits after the
try/except — and every transmitted message was produced by `poll_one` on
the reader sitting at the very slot its address names. -/
theorem C10_cycle_indexing (evs : Nat → PollEvent) (readers : List NfcReader)
    (c : ChromatikOcsClient) :
    (NfcController.poll_loop evs readers 0 c).1.length = readers.length
    ∧ (∀ i, (NfcController.poll_loop evs readers 0 c).1[i]?
        = (readers[i]?).map (fun r => NfcReader.step r (evs i)))
    ∧ (∀ m, m ∈ (NfcController.poll_loop evs readers 0 c).2.2 →
        ∃ c₂ r, readers[m.readerIndex]? = some r
          ∧ m ∈ (NfcController.poll_one c₂ m.readerIndex r
              (evs m.readerIndex)).2.2) := by
  refine ⟨poll_loop_length evs readers 0 c, ?_, ?_⟩
  · intro i
    simpa using poll_loop_get evs readers 0 c i
  · intro m hm
    obtain ⟨c₂, r, _, hget, hmem⟩ := poll_loop_sent evs readers 0 c m hm
    exact ⟨c₂, r, by simpa using hget, hmem⟩

/-- C10, witness: in a one-reader cycle that activates the demo tag, the
emitted enable message names slot 0 and is indeed produced by that
reader's own iteration. -/
theorem C10_witness :
    (⟨0, "fire", "T\n"⟩ : Msg) ∈ (NfcController.poll_loop demoEvs
        [NfcReader.init demoDict] 0 demoClientOk).2.2
    ∧ ∃ c₂ r, [NfcReader.init demoDict][(⟨0, "fire", "T\n"⟩ : Msg).readerIndex]?
          = some r
        ∧ (⟨0, "fire", "T\n"⟩ : Msg) ∈ (NfcController.poll_one c₂
            (⟨0, "fire", "T\n"⟩ : Msg).readerIndex r
            (demoEvs (⟨0, "fire", "T\n"⟩ : Msg).readerIndex)).2.2 :=
  ⟨by decide,
    (C10_cycle_indexing demoEvs [NfcReader.init demoDict] demoClientOk).2.2
      ⟨0, "fire", "T\n"⟩ (by decide)⟩
